import Mathlib

set_option maxRecDepth 10000

/-
Verification of the LUT generation engine of lut_builder.

The embedding follows src/lut_builder/engine.py (generate_lut) and
src/lut_builder/data.py (profile tables, hex_to_rgb).  Machine floats are
modelled by exact rationals.  The numeric functions supplied by the external
colour-science library (log decoding curves, OETFs, colourspace matrices,
np.log2) are not part of this repository; they enter the engine only as
black-box per-channel maps and per-gamut coefficient rows, so they are
modelled by an explicit environment record `LibEnv` and every theorem below
quantifies over it.
-/

namespace LutBuilder

instance {ε α : Type} [DecidableEq ε] [DecidableEq α] : DecidableEq (Except ε α) :=
  fun a b =>
    match a, b with
    | .error e, .error f =>
        if h : e = f then isTrue (congrArg _ h)
        else isFalse fun hc => h (Except.error.inj hc)
    | .error _, .ok _ => isFalse fun hc => Except.noConfusion hc
    | .ok _, .error _ => isFalse fun hc => Except.noConfusion hc
    | .ok x, .ok y =>
        if h : x = y then isTrue (congrArg _ h)
        else isFalse fun hc => h (Except.ok.inj hc)

/-- An RGB triple; one sample of the LUT table.  Channels are the exact
rational counterparts of the Python floats. -/
structure RGB where
  r : ℚ
  g : ℚ
  b : ℚ
deriving DecidableEq, Repr

/-- Apply a scalar function to every channel, as numpy broadcasts a scalar
ufunc over the last axis of an (M, 3) array. -/
def RGB.map (f : ℚ → ℚ) (c : RGB) : RGB :=
  ⟨f c.r, f c.g, f c.b⟩

/-- Dot product against a coefficient row, as np.dot(data, row) does
per sample. -/
def RGB.dot (c w : RGB) : ℚ :=
  c.r * w.r + c.g * w.g + c.b * w.b

/-- np.min(samples, axis=1): the minimum channel of one sample. -/
def RGB.min3 (c : RGB) : ℚ :=
  min c.r (min c.g c.b)

/-- np.max(samples, axis=1): the maximum channel of one sample. -/
def RGB.max3 (c : RGB) : ℚ :=
  max c.r (max c.g c.b)

/-- np.clip(x, 0, 1) on one channel. -/
def clamp01 (x : ℚ) : ℚ :=
  max 0 (min x 1)

/-- data.py: MIDDLE_GREY = 0.18. -/
def MIDDLE_GREY : ℚ := 18 / 100

/-- One hex digit, as Python int(_, 16) accepts it (0-9, a-f, A-F).
The exotic forms Python int() also tolerates on full strings (signs,
whitespace, underscores) cannot occur inside a two-character slice of a
six-character colour code, so they are not modelled. -/
def hexDigitVal (c : Char) : Option ℕ :=
  let n := c.toNat
  if 48 ≤ n ∧ n ≤ 57 then some (n - 48)
  else if 97 ≤ n ∧ n ≤ 102 then some (n - 97 + 10)
  else if 65 ≤ n ∧ n ≤ 70 then some (n - 65 + 10)
  else none

/-- int(hex_code[i : i + 2], 16) / 255.0 for one channel slice. -/
def hexPairVal (c1 c2 : Char) : Option ℚ := do
  let hi ← hexDigitVal c1
  let lo ← hexDigitVal c2
  pure (((hi * 16 + lo : ℕ) : ℚ) / 255)

/-- data.py hex_to_rgb: strip leading hash marks, require exactly six
characters, parse three channel pairs, divide by 255.  `none` models the
ValueError raised on a malformed code. -/
def hex_to_rgb (s : String) : Option RGB :=
  match s.toList.dropWhile (· == '#') with
  | [a, b, c, d, e, f] => do
      let rv ← hexPairVal a b
      let gv ← hexPairVal c d
      let bv ← hexPairVal e f
      pure ⟨rv, gv, bv⟩
  | _ => none

/-- One entry of data.py CAMERA_PROFILES. -/
structure CameraProfile where
  gamut : String
  log : String
  white_clip_stops : ℚ
  black_clip_stops : ℚ
  log_ceiling : ℚ
  log_floor : ℚ
deriving DecidableEq, Repr

/-- One entry of data.py TARGET_PROFILES.  Both registered targets carry an
explicit "oetf" encoding field, so the engine call
target.get("encoding", "oetf") is modelled by reading the field. -/
structure TargetProfile where
  gamut : String
  gamma : String
  encoding : String
deriving DecidableEq, Repr

/-- data.py CAMERA_PROFILES as a lookup; `none` models the KeyError a dict
access raises on an absent name. -/
def CAMERA_PROFILES (name : String) : Option CameraProfile :=
  if name = "Sony S-Log3" then
    some ⟨"S-Gamut3.Cine", "S-Log3", 6, -9, 94 / 100, 35 / 1000⟩
  else if name = "Panasonic V-Log" then
    some ⟨"V-Gamut", "V-Log", 65 / 10, -8, 8906 / 10000, 1251 / 10000⟩
  else if name = "Canon Log 3" then
    some ⟨"Cinema Gamut", "Canon Log 3", 7, -75 / 10, 90 / 100, 4 / 100⟩
  else if name = "ARRI LogC3" then
    some ⟨"ARRI Wide Gamut 3", "ARRI LogC3", 75 / 10, -7, 91 / 100, 3 / 100⟩
  else if name = "RED Log3G10" then
    some ⟨"REDWideGamutRGB", "Log3G10", 10, -8, 1, 0⟩
  else none

/-- data.py TARGET_PROFILES as a lookup. -/
def TARGET_PROFILES (name : String) : Option TargetProfile :=
  if name = "Rec.709" then some ⟨"ITU-R BT.709", "ITU-R BT.709", "oetf"⟩
  else if name = "Rec.2020" then some ⟨"ITU-R BT.2020", "ITU-R BT.2020", "oetf"⟩
  else none

/-- The numeric services the engine obtains from the colour-science library.
Each field is keyed the way the source keys it: log curves and transfer
functions by method name, luminance rows and gamut conversions by
colourspace name.  np.log2 is the only transcendental applied to a scalar
outside the library, so it is a field too. -/
structure LibEnv where
  logDecoding : String → ℚ → ℚ
  logEncoding : String → ℚ → ℚ
  oetf : String → ℚ → ℚ
  lumaRow : String → RGB
  rgbToRgb : String → String → RGB → RGB
  log2 : ℚ → ℚ

/-- One false-colour band descriptor, engine.py band dict
(stop value or IRE target, hex colour, half width). -/
structure Band where
  stop : ℚ
  color : String
  width : ℚ
deriving DecidableEq, Repr

/-- The resolved generation request: the argument list of generate_lut. -/
structure Request where
  profile_name : String
  target_name : String
  cube_size : ℕ
  bands : List Band
  band_mode : String
  black_clip : Bool
  black_hex : String
  white_clip : Bool
  white_hex : String
  monochrome : Bool
  output_filename : String
  legal_range : Bool
deriving DecidableEq, Repr

/-- The Python exceptions generate_lut can raise: KeyError from a profile
dict lookup, ValueError from hex_to_rgb. -/
inductive EngineError where
  | keyError (key : String)
  | valueError
deriving DecidableEq, Repr

/-- Step 1: colour.LUT3D(size = N).table reshaped to (-1, 3).  The default
LUT3D table is the identity lattice, so flat sample n carries the grid
coordinates of its three axis indices, each i / (N - 1). -/
def gridSample (N n : ℕ) : RGB :=
  ⟨((n / (N * N) : ℕ) : ℚ) / ((N : ℚ) - 1),
   ((n / N % N : ℕ) : ℚ) / ((N : ℚ) - 1),
   ((n % N : ℕ) : ℚ) / ((N : ℚ) - 1)⟩

/-- Step 3: linear_data = colour.models.log_decoding(samples, profile log). -/
def linearOf (env : LibEnv) (profile : CameraProfile) (N n : ℕ) : RGB :=
  (gridSample N n).map (env.logDecoding profile.log)

/-- Step 4: Y = dot(linear, source luminance row);
stops = np.log2(np.maximum(Y, 1e-6) / MIDDLE_GREY). -/
def stopsOf (env : LibEnv) (profile : CameraProfile) (N n : ℕ) : ℚ :=
  env.log2 (max ((linearOf env profile N n).dot (env.lumaRow profile.gamut))
      (1 / 1000000) / MIDDLE_GREY)

/-- Steps 5, 5b and 6: gamut transform, optional monochrome collapse to the
target luminance, then the display transfer function selected by the
encoding kind of the target. -/
def baseImage (env : LibEnv) (profile : CameraProfile) (target : TargetProfile)
    (monochrome : Bool) (N n : ℕ) : RGB :=
  let lin := env.rgbToRgb profile.gamut target.gamut (linearOf env profile N n)
  let lin2 :=
    if monochrome then
      let y := lin.dot (env.lumaRow target.gamut)
      RGB.mk y y y
    else lin
  if target.encoding = "oetf" then lin2.map (env.oetf target.gamma)
  else lin2.map (env.logEncoding target.gamma)

/-- Step 6b: ire = dot(final_data, target luminance row) * 100. -/
def ireOf (env : LibEnv) (profile : CameraProfile) (target : TargetProfile)
    (monochrome : Bool) (N n : ℕ) : ℚ :=
  (baseImage env profile target monochrome N n).dot (env.lumaRow target.gamut) * 100

/-- Step 7 selector: band_values = ire if band_mode == "ire" else stops. -/
def bandValuesOf (env : LibEnv) (profile : CameraProfile) (target : TargetProfile)
    (req : Request) : ℕ → ℚ :=
  fun n =>
    if req.band_mode = "ire" then
      ireOf env profile target req.monochrome req.cube_size n
    else stopsOf env profile req.cube_size n

/-- The band membership test of the step 7 loop:
(band_values >= center - width) & (band_values <= center + width). -/
def bandMask (center width v : ℚ) : Bool :=
  decide (center - width ≤ v) && decide (v ≤ center + width)

/-- The step 7 loop: for each band in caller order, parse its colour (a
malformed code raises ValueError) and overwrite every sample whose band
value falls inside the band interval. -/
def applyBands (bv : ℕ → ℚ) : List Band → (ℕ → RGB) → Except EngineError (ℕ → RGB)
  | [], data => .ok data
  | band :: rest, data =>
    match hex_to_rgb band.color with
    | none => .error .valueError
    | some rgb =>
        applyBands bv rest
          (fun n => if bandMask band.stop band.width (bv n) then rgb else data n)

/-- Step 8: clip_tol = (1.0 / (cube_size - 1)) / 2.0, half a grid step. -/
def clipTol (N : ℕ) : ℚ :=
  1 / ((N : ℚ) - 1) / 2

/-- Step 8, black indicator: when black_clip is set and black_hex is a
non-empty (truthy) string, paint every sample whose minimum raw grid
channel sits at or below log_floor + tolerance. -/
def applyBlackClip (profile : CameraProfile) (req : Request) (data : ℕ → RGB) :
    Except EngineError (ℕ → RGB) :=
  if req.black_clip ∧ req.black_hex ≠ "" then
    match hex_to_rgb req.black_hex with
    | none => .error .valueError
    | some black_rgb =>
        .ok fun n =>
          if (gridSample req.cube_size n).min3 ≤ profile.log_floor + clipTol req.cube_size
          then black_rgb else data n
  else .ok data

/-- Step 8, white indicator: when white_clip is set and white_hex is
non-empty, paint every sample whose maximum raw grid channel reaches
log_ceiling - tolerance. -/
def applyWhiteClip (profile : CameraProfile) (req : Request) (data : ℕ → RGB) :
    Except EngineError (ℕ → RGB) :=
  if req.white_clip ∧ req.white_hex ≠ "" then
    match hex_to_rgb req.white_hex with
    | none => .error .valueError
    | some white_rgb =>
        .ok fun n =>
          if (gridSample req.cube_size n).max3 ≥ profile.log_ceiling - clipTol req.cube_size
          then white_rgb else data n
  else .ok data

/-- Step 8 in source order: black indicator first, white indicator second,
so the white overlay is the later write where both masks hold. -/
def applyClips (profile : CameraProfile) (req : Request) (data : ℕ → RGB) :
    Except EngineError (ℕ → RGB) :=
  match applyBlackClip profile req data with
  | .error e => .error e
  | .ok d => applyWhiteClip profile req d

/-- Step 10 constants: 64 / 1023 and 940 / 1023. -/
def legal_low : ℚ := 64 / 1023

/-- Upper legal level, 940 / 1023. -/
def legal_high : ℚ := 940 / 1023

/-- Step 10: final_data * (legal_high - legal_low) + legal_low on one
channel. -/
def legalize (x : ℚ) : ℚ :=
  x * (legal_high - legal_low) + legal_low

/-- The affine inverse of the legal-range rescale.  Modelled from the spec:
the spec asserts the rescale is idempotent under a known inverse; no inverse
appears in the source, so this definition realises the inverse the spec
refers to. -/
def legalize_inv (y : ℚ) : ℚ :=
  (y - legal_low) / (legal_high - legal_low)

/-- engine.py generate_lut.  The pure numeric stages are the definitions
above; errors propagate exactly where the Python exceptions are raised
(profile lookups first, then band colour parsing, then clip colour
parsing).  The returned function is the table handed to colour.write_LUT:
the optional legal-range rescale followed by the final clamp of every
channel to [0, 1].  An `Except.error` result models an exception escaping
before the write, so no file is produced. -/
def generate_lut (env : LibEnv) (req : Request) : Except EngineError (ℕ → RGB) :=
  match CAMERA_PROFILES req.profile_name with
  | none => .error (.keyError req.profile_name)
  | some profile =>
    match TARGET_PROFILES req.target_name with
    | none => .error (.keyError req.target_name)
    | some target =>
      match applyBands (bandValuesOf env profile target req) req.bands
          (baseImage env profile target req.monochrome req.cube_size) with
      | .error e => .error e
      | .ok painted =>
        match applyClips profile req painted with
        | .error e => .error e
        | .ok clipped =>
          let ranged :=
            if req.legal_range then fun n => (clipped n).map legalize else clipped
          .ok fun n => (ranged n).map clamp01

/-- The serialized table body: the N^3 data rows written to the .cube file,
in flat raster order. -/
def lut_table_rows (env : LibEnv) (req : Request) : Except EngineError (List RGB) :=
  (generate_lut env req).map fun t => (List.range (req.cube_size ^ 3)).map t

/-- One sample of the generated table. -/
def lut_sample (env : LibEnv) (req : Request) (n : ℕ) : Except EngineError RGB :=
  (generate_lut env req).map fun t => t n

/-- One sample of the table right after the band loop (step 7). -/
def bands_sample (bv : ℕ → ℚ) (bands : List Band) (data : ℕ → RGB) (n : ℕ) :
    Except EngineError RGB :=
  (applyBands bv bands data).map fun t => t n

/-- One sample of the table right after both overlay stages (steps 7 and 8),
before the legal-range rescale and the final clamp. -/
def overlay_sample (env : LibEnv) (profile : CameraProfile) (target : TargetProfile)
    (req : Request) (n : ℕ) : Except EngineError RGB :=
  match applyBands (bandValuesOf env profile target req) req.bands
      (baseImage env profile target req.monochrome req.cube_size) with
  | .error e => .error e
  | .ok painted =>
    match applyClips profile req painted with
    | .error e => .error e
    | .ok clipped => .ok (clipped n)

/-- The black indicator repaints sample n: toggle on, colour string
non-empty, and the raw grid minimum channel inside the floor tolerance. -/
def blackApplies (profile : CameraProfile) (req : Request) (n : ℕ) : Bool :=
  req.black_clip && decide (req.black_hex ≠ "") &&
    decide ((gridSample req.cube_size n).min3 ≤ profile.log_floor + clipTol req.cube_size)

/-- The white indicator repaints sample n. -/
def whiteApplies (profile : CameraProfile) (req : Request) (n : ℕ) : Bool :=
  req.white_clip && decide (req.white_hex ≠ "") &&
    decide ((gridSample req.cube_size n).max3 ≥ profile.log_ceiling - clipTol req.cube_size)

/-
Helper lemmas about the embedded stages.
-/

theorem clamp01_eq_self {x : ℚ} (h0 : 0 ≤ x) (h1 : x ≤ 1) : clamp01 x = x := by
  unfold clamp01
  rw [min_eq_left h1, max_eq_right h0]

theorem clamp01_nonneg (x : ℚ) : 0 ≤ clamp01 x :=
  le_max_left 0 _

theorem clamp01_le_one (x : ℚ) : clamp01 x ≤ 1 :=
  max_le (by norm_num) (min_le_right x 1)

theorem hexDigitVal_le {c : Char} {m : ℕ} (h : hexDigitVal c = some m) : m ≤ 15 := by
  simp only [hexDigitVal] at h
  split at h
  · simp only [Option.some.injEq] at h
    omega
  · split at h
    · simp only [Option.some.injEq] at h
      omega
    · split at h
      · simp only [Option.some.injEq] at h
        omega
      · exact Option.noConfusion h

theorem hexPairVal_mem {c1 c2 : Char} {q : ℚ} (h : hexPairVal c1 c2 = some q) :
    0 ≤ q ∧ q ≤ 1 := by
  unfold hexPairVal at h
  cases h1 : hexDigitVal c1 with
  | none => rw [h1] at h; exact Option.noConfusion h
  | some hi =>
    cases h2 : hexDigitVal c2 with
    | none => rw [h1, h2] at h; exact Option.noConfusion h
    | some lo =>
      rw [h1, h2] at h
      simp only [Option.bind_eq_bind, Option.some_bind, Option.pure_def,
        Option.some.injEq] at h
      subst h
      constructor
      · positivity
      · rw [div_le_one (by norm_num)]
        have hhi := hexDigitVal_le h1
        have hlo := hexDigitVal_le h2
        have : (hi * 16 + lo : ℕ) ≤ 255 := by omega
        exact_mod_cast this

theorem hex_to_rgb_clamp {s : String} {col : RGB} (h : hex_to_rgb s = some col) :
    RGB.map clamp01 col = col := by
  unfold hex_to_rgb at h
  split at h
  case _ x1 x2 x3 x4 x5 x6 heq =>
    cases hr : hexPairVal x1 x2 with
    | none => rw [hr] at h; exact Option.noConfusion h
    | some rv =>
      cases hg : hexPairVal x3 x4 with
      | none =>
          rw [hr, hg] at h
          simp only [Option.bind_eq_bind, Option.some_bind, Option.none_bind] at h
          exact Option.noConfusion h
      | some gv =>
        cases hb : hexPairVal x5 x6 with
        | none =>
            rw [hr, hg, hb] at h
            simp only [Option.bind_eq_bind, Option.some_bind, Option.none_bind] at h
            exact Option.noConfusion h
        | some bv =>
          rw [hr, hg, hb] at h
          simp only [Option.bind_eq_bind, Option.some_bind, Option.pure_def,
            Option.some.injEq] at h
          subst h
          obtain ⟨hr0, hr1⟩ := hexPairVal_mem hr
          obtain ⟨hg0, hg1⟩ := hexPairVal_mem hg
          obtain ⟨hb0, hb1⟩ := hexPairVal_mem hb
          simp [RGB.map, clamp01_eq_self, hr0, hr1, hg0, hg1, hb0, hb1]
  case _ => exact Option.noConfusion h

theorem bandMask_of_neg {center width v : ℚ} (hw : width < 0) :
    bandMask center width v = false := by
  unfold bandMask
  by_cases h1 : center - width ≤ v
  · by_cases h2 : v ≤ center + width
    · linarith
    · simp [h2]
  · simp [h1]

theorem bandMask_zero (center v : ℚ) : bandMask center 0 v = decide (v = center) := by
  unfold bandMask
  rcases eq_or_ne v center with rfl | h
  · simp
  · rw [decide_eq_false h, sub_zero, add_zero]
    by_cases hge : v ≤ center
    · have hlt : ¬ center ≤ v := fun hc => h (le_antisymm hge hc)
      rw [decide_eq_false hlt, Bool.false_and]
    · rw [decide_eq_false hge, Bool.and_false]

theorem applyBands_no_match {bv : ℕ → ℚ} {n : ℕ} :
    ∀ (bands : List Band) (data res : ℕ → RGB),
      applyBands bv bands data = .ok res →
      (∀ b ∈ bands, bandMask b.stop b.width (bv n) = false) →
      res n = data n
  | [], data, res, h, _ => by
      simp only [applyBands] at h
      cases h
      rfl
  | band :: rest, data, res, h, hmask => by
      simp only [applyBands] at h
      cases hc : hex_to_rgb band.color with
      | none => rw [hc] at h; exact Except.noConfusion h
      | some rgb =>
        rw [hc] at h
        have ih := applyBands_no_match rest _ res h
          (fun b hb => hmask b (List.mem_cons_of_mem _ hb))
        rw [ih, hmask band (List.mem_cons_self _ _)]
        simp

theorem applyBands_last {bv : ℕ → ℚ} {n : ℕ} {b : Band} {l2 : List Band} {c : RGB} :
    ∀ (l1 : List Band) (data res : ℕ → RGB),
      applyBands bv (l1 ++ b :: l2) data = .ok res →
      bandMask b.stop b.width (bv n) = true →
      (∀ x ∈ l2, bandMask x.stop x.width (bv n) = false) →
      hex_to_rgb b.color = some c →
      res n = c
  | [], data, res, h, hb, hl2, hc => by
      simp only [List.nil_append, applyBands, hc] at h
      have := applyBands_no_match l2 _ res h hl2
      rw [this, hb]
      simp
  | a :: l1, data, res, h, hb, hl2, hc => by
      simp only [List.cons_append, applyBands] at h
      cases hca : hex_to_rgb a.color with
      | none => rw [hca] at h; exact Except.noConfusion h
      | some rgb =>
        rw [hca] at h
        exact applyBands_last l1 _ res h hb hl2 hc

theorem applyBands_skip_neg {bv : ℕ → ℚ} {b : Band} {c : RGB}
    (hw : b.width < 0) (hc : hex_to_rgb b.color = some c) :
    ∀ (l1 l2 : List Band) (data : ℕ → RGB),
      applyBands bv (l1 ++ b :: l2) data = applyBands bv (l1 ++ l2) data
  | [], l2, data => by
      simp only [List.nil_append, applyBands, hc]
      congr 1
      funext n
      rw [bandMask_of_neg hw]
      simp
  | a :: l1, l2, data => by
      simp only [List.cons_append, applyBands]
      cases hca : hex_to_rgb a.color with
      | none => rfl
      | some rgb => exact applyBands_skip_neg hw hc l1 l2 _

theorem applyBlackClip_paint {p : CameraProfile} {req : Request} {data d : ℕ → RGB}
    {n : ℕ} {c : RGB}
    (h : applyBlackClip p req data = .ok d)
    (hb : blackApplies p req n = true)
    (hc : hex_to_rgb req.black_hex = some c) :
    d n = c := by
  unfold applyBlackClip at h
  simp only [blackApplies, Bool.and_eq_true, decide_eq_true_eq] at hb
  obtain ⟨⟨htog, hhex⟩, hmask⟩ := hb
  rw [if_pos ⟨htog, hhex⟩, hc] at h
  cases h
  simp [hmask]

theorem applyBlackClip_skip {p : CameraProfile} {req : Request} {data d : ℕ → RGB}
    {n : ℕ}
    (h : applyBlackClip p req data = .ok d)
    (hb : blackApplies p req n = false) :
    d n = data n := by
  unfold applyBlackClip at h
  simp only [blackApplies, Bool.and_eq_false_iff, Bool.and_eq_true,
    decide_eq_true_eq, decide_eq_false_iff_not] at hb
  split at h
  · rename_i hcond
    cases hhex : hex_to_rgb req.black_hex with
    | none => rw [hhex] at h; exact Except.noConfusion h
    | some c =>
      rw [hhex] at h
      cases h
      rcases hb with hb | hb
      · rcases hb with hb | hb
        · rw [hcond.1] at hb; exact Bool.noConfusion hb
        · exact absurd hcond.2 hb
      · simp [hb]
  · cases h
    rfl

theorem applyWhiteClip_paint {p : CameraProfile} {req : Request} {data d : ℕ → RGB}
    {n : ℕ} {c : RGB}
    (h : applyWhiteClip p req data = .ok d)
    (hw : whiteApplies p req n = true)
    (hc : hex_to_rgb req.white_hex = some c) :
    d n = c := by
  unfold applyWhiteClip at h
  simp only [whiteApplies, Bool.and_eq_true, decide_eq_true_eq] at hw
  obtain ⟨⟨htog, hhex⟩, hmask⟩ := hw
  rw [if_pos ⟨htog, hhex⟩, hc] at h
  cases h
  simp [hmask]

theorem applyWhiteClip_skip {p : CameraProfile} {req : Request} {data d : ℕ → RGB}
    {n : ℕ}
    (h : applyWhiteClip p req data = .ok d)
    (hw : whiteApplies p req n = false) :
    d n = data n := by
  unfold applyWhiteClip at h
  simp only [whiteApplies, Bool.and_eq_false_iff, Bool.and_eq_true,
    decide_eq_true_eq, decide_eq_false_iff_not] at hw
  split at h
  · rename_i hcond
    cases hhex : hex_to_rgb req.white_hex with
    | none => rw [hhex] at h; exact Except.noConfusion h
    | some c =>
      rw [hhex] at h
      cases h
      rcases hw with hw | hw
      · rcases hw with hw | hw
        · rw [hcond.1] at hw; exact Bool.noConfusion hw
        · exact absurd hcond.2 hw
      · simp [hw]
  · cases h
    rfl

theorem applyClips_ok_inv {p : CameraProfile} {req : Request} {data d : ℕ → RGB}
    (h : applyClips p req data = .ok d) :
    ∃ d1, applyBlackClip p req data = .ok d1 ∧ applyWhiteClip p req d1 = .ok d := by
  unfold applyClips at h
  cases hb : applyBlackClip p req data with
  | error e => rw [hb] at h; exact Except.noConfusion h
  | ok d1 => rw [hb] at h; exact ⟨d1, rfl, h⟩

theorem applyClips_skip {p : CameraProfile} {req : Request} {data d : ℕ → RGB} {n : ℕ}
    (h : applyClips p req data = .ok d)
    (hb : blackApplies p req n = false)
    (hw : whiteApplies p req n = false) :
    d n = data n := by
  obtain ⟨d1, h1, h2⟩ := applyClips_ok_inv h
  rw [applyWhiteClip_skip h2 hw, applyBlackClip_skip h1 hb]

theorem applyClips_white {p : CameraProfile} {req : Request} {data d : ℕ → RGB}
    {n : ℕ} {c : RGB}
    (h : applyClips p req data = .ok d)
    (hw : whiteApplies p req n = true)
    (hc : hex_to_rgb req.white_hex = some c) :
    d n = c := by
  obtain ⟨d1, h1, h2⟩ := applyClips_ok_inv h
  exact applyWhiteClip_paint h2 hw hc

theorem applyClips_black {p : CameraProfile} {req : Request} {data d : ℕ → RGB}
    {n : ℕ} {c : RGB}
    (h : applyClips p req data = .ok d)
    (hb : blackApplies p req n = true)
    (hw : whiteApplies p req n = false)
    (hc : hex_to_rgb req.black_hex = some c) :
    d n = c := by
  obtain ⟨d1, h1, h2⟩ := applyClips_ok_inv h
  rw [applyWhiteClip_skip h2 hw, applyBlackClip_paint h1 hb hc]

theorem generate_lut_unknown_camera {env : LibEnv} {req : Request}
    (h : CAMERA_PROFILES req.profile_name = none) :
    generate_lut env req = .error (.keyError req.profile_name) := by
  unfold generate_lut
  rw [h]

theorem generate_lut_unknown_target {env : LibEnv} {req : Request} {p : CameraProfile}
    (hp : CAMERA_PROFILES req.profile_name = some p)
    (h : TARGET_PROFILES req.target_name = none) :
    generate_lut env req = .error (.keyError req.target_name) := by
  unfold generate_lut
  rw [hp, h]

theorem generate_lut_ok_clamped {env : LibEnv} {req : Request} {t : ℕ → RGB}
    (h : generate_lut env req = .ok t) (n : ℕ) :
    ∃ x, t n = RGB.map clamp01 x := by
  unfold generate_lut at h
  split at h
  · exact Except.noConfusion h
  · split at h
    · exact Except.noConfusion h
    · split at h
      · exact Except.noConfusion h
      · split at h
        · exact Except.noConfusion h
        · cases h
          exact ⟨_, rfl⟩

theorem lut_sample_ok_inv {env : LibEnv} {req : Request} {p : CameraProfile}
    {t : TargetProfile} {n : ℕ} {v : RGB}
    (hp : CAMERA_PROFILES req.profile_name = some p)
    (ht : TARGET_PROFILES req.target_name = some t)
    (h : lut_sample env req n = .ok v) :
    ∃ painted clipped,
      applyBands (bandValuesOf env p t req) req.bands
          (baseImage env p t req.monochrome req.cube_size) = .ok painted ∧
      applyClips p req painted = .ok clipped ∧
      v = RGB.map clamp01
        (if req.legal_range then RGB.map legalize (clipped n) else clipped n) := by
  unfold lut_sample generate_lut at h
  split at h
  · exact Except.noConfusion h
  · rename_i profile heqp
    rw [hp] at heqp
    cases heqp
    split at h
    · exact Except.noConfusion h
    · rename_i target heqt
      rw [ht] at heqt
      cases heqt
      split at h
      · exact Except.noConfusion h
      · rename_i painted heqb
        split at h
        · exact Except.noConfusion h
        · rename_i clipped heqc
          refine ⟨painted, clipped, heqb, heqc, ?_⟩
          simp only [Except.map] at h
          cases h
          cases hl : req.legal_range <;> simp [hl]

theorem overlay_sample_ok_inv {env : LibEnv} {req : Request} {p : CameraProfile}
    {t : TargetProfile} {n : ℕ} {z : RGB}
    (h : overlay_sample env p t req n = .ok z) :
    ∃ painted clipped,
      applyBands (bandValuesOf env p t req) req.bands
          (baseImage env p t req.monochrome req.cube_size) = .ok painted ∧
      applyClips p req painted = .ok clipped ∧ z = clipped n := by
  unfold overlay_sample at h
  split at h
  · exact Except.noConfusion h
  · rename_i painted heqb
    split at h
    · exact Except.noConfusion h
    · rename_i clipped heqc
      cases h
      exact ⟨painted, clipped, heqb, heqc, rfl⟩

theorem bands_sample_ok_inv {bv : ℕ → ℚ} {bands : List Band} {data : ℕ → RGB}
    {n : ℕ} {w : RGB}
    (h : bands_sample bv bands data n = .ok w) :
    ∃ painted, applyBands bv bands data = .ok painted ∧ w = painted n := by
  unfold bands_sample at h
  cases hb : applyBands bv bands data with
  | error e =>
      rw [hb] at h
      simp only [Except.map] at h
      exact Except.noConfusion h
  | ok painted =>
    rw [hb] at h
    simp only [Except.map] at h
    cases h
    exact ⟨painted, rfl, rfl⟩

/-
Concrete fixtures used by the closed witness theorems: a simple library
environment (identity curves, a pure green luminance row, identity gamut
conversion, identity stand-in for log2) and a small baseline request.
-/

/-- A concrete library environment for closed evaluations. -/
def envId : LibEnv where
  logDecoding := fun _ x => x
  logEncoding := fun _ x => x
  oetf := fun _ x => x
  lumaRow := fun _ => ⟨0, 1, 0⟩
  rgbToRgb := fun _ _ c => c
  log2 := fun x => x

/-- A baseline request: Sony S-Log3 to Rec.709, cube size 2, no bands, no
clips, stops mode, full range. -/
def reqBase : Request where
  profile_name := "Sony S-Log3"
  target_name := "Rec.709"
  cube_size := 2
  bands := []
  band_mode := "stops"
  black_clip := false
  black_hex := ""
  white_clip := false
  white_hex := ""
  monochrome := false
  output_filename := "out.cube"
  legal_range := false

/-- The Sony S-Log3 registry entry, spelled out. -/
def sonyProfile : CameraProfile :=
  ⟨"S-Gamut3.Cine", "S-Log3", 6, -9, 94 / 100, 35 / 1000⟩

/-- The Rec.709 registry entry, spelled out. -/
def rec709Profile : TargetProfile :=
  ⟨"ITU-R BT.709", "ITU-R BT.709", "oetf"⟩

/-- The table the baseline request produces under envId: the identity
lattice corners. -/
def rowsBase : List RGB :=
  [⟨0, 0, 0⟩, ⟨0, 0, 1⟩, ⟨0, 1, 0⟩, ⟨0, 1, 1⟩,
   ⟨1, 0, 0⟩, ⟨1, 0, 1⟩, ⟨1, 1, 0⟩, ⟨1, 1, 1⟩]

/-
The claims.
-/

/-- Claim C1: for every library environment and every request on which
generate_lut succeeds, every channel of every row of the LUT table it
serializes and returns lies in the closed interval [0, 1].  This is the
final np.clip(final_data, 0, 1) applied immediately before the write. -/
theorem claim_C1 (env : LibEnv) (req : Request) (rows : List RGB)
    (h : lut_table_rows env req = .ok rows) :
    ∀ c ∈ rows, (0 ≤ c.r ∧ c.r ≤ 1) ∧ (0 ≤ c.g ∧ c.g ≤ 1) ∧ (0 ≤ c.b ∧ c.b ≤ 1) := by
  intro c hc
  unfold lut_table_rows at h
  cases hg : generate_lut env req with
  | error e =>
      rw [hg] at h
      simp only [Except.map] at h
      exact Except.noConfusion h
  | ok tab =>
    rw [hg] at h
    simp only [Except.map] at h
    cases h
    obtain ⟨n, hn, rfl⟩ := List.mem_map.mp hc
    obtain ⟨x, hx⟩ := generate_lut_ok_clamped hg n
    rw [hx]
    exact ⟨⟨clamp01_nonneg _, clamp01_le_one _⟩, ⟨clamp01_nonneg _, clamp01_le_one _⟩,
      ⟨clamp01_nonneg _, clamp01_le_one _⟩⟩

/-- Witness for C1: the baseline request generates the identity corner
table and the claim instance holds at one of its rows. -/
theorem claim_C1_witness :
    lut_table_rows envId reqBase = .ok rowsBase ∧
    ((0 ≤ (RGB.mk 0 0 1).r ∧ (RGB.mk 0 0 1).r ≤ 1) ∧
     (0 ≤ (RGB.mk 0 0 1).g ∧ (RGB.mk 0 0 1).g ≤ 1) ∧
     (0 ≤ (RGB.mk 0 0 1).b ∧ (RGB.mk 0 0 1).b ≤ 1)) :=
  ⟨by with_unfolding_all decide,
   claim_C1 envId reqBase rowsBase (by with_unfolding_all decide) ⟨0, 0, 1⟩
     (by with_unfolding_all decide)⟩

/-- Claim C7: a camera profile name absent from CAMERA_PROFILES makes
generate_lut fail with the KeyError naming it, before anything else runs;
a present camera but absent target name fails with the KeyError naming the
target.  An error result models the Python exception escaping before
colour.write_LUT is reached, so no output file is written. -/
theorem claim_C7 (env : LibEnv) (req : Request) :
    (CAMERA_PROFILES req.profile_name = none →
      generate_lut env req = .error (.keyError req.profile_name)) ∧
    (∀ p, CAMERA_PROFILES req.profile_name = some p →
      TARGET_PROFILES req.target_name = none →
      generate_lut env req = .error (.keyError req.target_name)) :=
  ⟨fun h => generate_lut_unknown_camera h,
   fun _ hp h => generate_lut_unknown_target hp h⟩

/-- Witness for C7: two concrete unknown names. -/
theorem claim_C7_witness :
    generate_lut envId { reqBase with profile_name := "Sony S-Log9" } =
      .error (.keyError "Sony S-Log9") ∧
    generate_lut envId { reqBase with target_name := "Rec.9999" } =
      .error (.keyError "Rec.9999") :=
  ⟨(claim_C7 envId { reqBase with profile_name := "Sony S-Log9" }).1
     (by with_unfolding_all decide),
   (claim_C7 envId { reqBase with target_name := "Rec.9999" }).2 sonyProfile
     (by with_unfolding_all decide) (by with_unfolding_all decide)⟩

theorem applyBlackClip_empty {p : CameraProfile} {req : Request} {data : ℕ → RGB}
    (h : req.black_hex = "") :
    applyBlackClip p req data = .ok data := by
  unfold applyBlackClip
  rw [if_neg]
  intro hc
  exact hc.2 h

theorem applyWhiteClip_empty {p : CameraProfile} {req : Request} {data : ℕ → RGB}
    (h : req.white_hex = "") :
    applyWhiteClip p req data = .ok data := by
  unfold applyWhiteClip
  rw [if_neg]
  intro hc
  exact hc.2 h

/-- Claim C9: a black (white) clip toggle set to true with an empty colour
string raises no error and applies no clip overlay: generate_lut returns
exactly what it returns for the same request with the toggle false.  The
Python guard is the truthiness test black_clip and black_hex, which an
empty string fails. -/
theorem claim_C9 (env : LibEnv) (req : Request) :
    (req.black_hex = "" →
      generate_lut env req = generate_lut env { req with black_clip := false }) ∧
    (req.white_hex = "" →
      generate_lut env req = generate_lut env { req with white_clip := false }) := by
  obtain ⟨pn, tn, N, bands, mode, bc, bh, wc, wh, mono, ofn, lr⟩ := req
  constructor
  · intro hb
    dsimp only at hb
    subst hb
    unfold generate_lut
    dsimp only
    cases CAMERA_PROFILES pn with
    | none => rfl
    | some p =>
      cases TARGET_PROFILES tn with
      | none => rfl
      | some t =>
        dsimp only
        rw [show bandValuesOf env p t ⟨pn, tn, N, bands, mode, false, "", wc, wh, mono, ofn, lr⟩
              = bandValuesOf env p t ⟨pn, tn, N, bands, mode, bc, "", wc, wh, mono, ofn, lr⟩ from rfl]
        cases applyBands (bandValuesOf env p t ⟨pn, tn, N, bands, mode, bc, "", wc, wh, mono, ofn, lr⟩)
            bands (baseImage env p t mono N) with
        | error e => rfl
        | ok painted =>
          dsimp only
          have hclips : applyClips p ⟨pn, tn, N, bands, mode, false, "", wc, wh, mono, ofn, lr⟩ painted
              = applyClips p ⟨pn, tn, N, bands, mode, bc, "", wc, wh, mono, ofn, lr⟩ painted := by
            unfold applyClips
            rw [applyBlackClip_empty rfl, applyBlackClip_empty rfl]
            dsimp only
            rfl
          rw [hclips]
  · intro hw
    dsimp only at hw
    subst hw
    unfold generate_lut
    dsimp only
    cases CAMERA_PROFILES pn with
    | none => rfl
    | some p =>
      cases TARGET_PROFILES tn with
      | none => rfl
      | some t =>
        dsimp only
        rw [show bandValuesOf env p t ⟨pn, tn, N, bands, mode, bc, bh, false, "", mono, ofn, lr⟩
              = bandValuesOf env p t ⟨pn, tn, N, bands, mode, bc, bh, wc, "", mono, ofn, lr⟩ from rfl]
        cases applyBands (bandValuesOf env p t ⟨pn, tn, N, bands, mode, bc, bh, wc, "", mono, ofn, lr⟩)
            bands (baseImage env p t mono N) with
        | error e => rfl
        | ok painted =>
          dsimp only
          have hclips : applyClips p ⟨pn, tn, N, bands, mode, bc, bh, false, "", mono, ofn, lr⟩ painted
              = applyClips p ⟨pn, tn, N, bands, mode, bc, bh, wc, "", mono, ofn, lr⟩ painted := by
            unfold applyClips
            cases hb2 : applyBlackClip p ⟨pn, tn, N, bands, mode, bc, bh, wc, "", mono, ofn, lr⟩ painted with
            | error e =>
                rw [show applyBlackClip p ⟨pn, tn, N, bands, mode, bc, bh, false, "", mono, ofn, lr⟩ painted
                      = Except.error e from hb2]
            | ok d =>
                rw [show applyBlackClip p ⟨pn, tn, N, bands, mode, bc, bh, false, "", mono, ofn, lr⟩ painted
                      = Except.ok d from hb2]
                dsimp only
                rw [applyWhiteClip_empty rfl, applyWhiteClip_empty rfl]
          rw [hclips]


/-- Witness for C9 at a concrete request with both toggles set but empty
colour strings. -/
theorem claim_C9_witness :
    generate_lut envId { reqBase with black_clip := true } =
      generate_lut envId { { reqBase with black_clip := true } with black_clip := false } ∧
    generate_lut envId { reqBase with white_clip := true } =
      generate_lut envId { { reqBase with white_clip := true } with white_clip := false } :=
  ⟨(claim_C9 envId { reqBase with black_clip := true }).1 rfl,
   (claim_C9 envId { reqBase with white_clip := true }).2 rfl⟩

/-- Band fixture: one stop wide around the metric value 50/9 that envId
produces at grid sample 2 of a size-2 cube. -/
def bandA : Band := ⟨50 / 9, "#ff0000", 1⟩

/-- Band fixture overlapping bandA, listed after it. -/
def bandB : Band := ⟨50 / 9, "#0000ff", 2⟩

/-- Request fixture for the band overlap claim. -/
def reqC2 : Request := { reqBase with bands := [bandA, bandB] }

/-- Claim C2: later bands win on overlap.  For any request whose band list
decomposes as pre ++ A :: mid ++ B :: post, any sample whose metric lies in
both the A and the B interval, is not matched by any band after B, and is
not covered by an enabled clip overlay, holds the colour of B in the output
(exactly B with the legal-range rescale off, the rescaled clamped image of
B with it on) and hence never the colour of A. -/
theorem claim_C2 (env : LibEnv) (req : Request) (p : CameraProfile) (t : TargetProfile)
    (pre mid post : List Band) (A B : Band) (cB : RGB) (n : ℕ) (v : RGB)
    (hp : CAMERA_PROFILES req.profile_name = some p)
    (ht : TARGET_PROFILES req.target_name = some t)
    (hlist : req.bands = pre ++ A :: (mid ++ B :: post))
    (hA : bandMask A.stop A.width (bandValuesOf env p t req n) = true)
    (hB : bandMask B.stop B.width (bandValuesOf env p t req n) = true)
    (hpost : ∀ x ∈ post, bandMask x.stop x.width (bandValuesOf env p t req n) = false)
    (hcB : hex_to_rgb B.color = some cB)
    (hblack : blackApplies p req n = false)
    (hwhite : whiteApplies p req n = false)
    (h : lut_sample env req n = .ok v) :
    v = if req.legal_range = true then RGB.map clamp01 (RGB.map legalize cB) else cB := by
  obtain ⟨painted, clipped, hb, hc, hv⟩ := lut_sample_ok_inv hp ht h
  have hclip : clipped n = painted n := applyClips_skip hc hblack hwhite
  have hassoc : pre ++ A :: (mid ++ B :: post) = (pre ++ A :: mid) ++ B :: post := by
    simp
  rw [hlist, hassoc] at hb
  have hpaint : painted n = cB := applyBands_last _ _ _ hb hB hpost hcB
  rw [hv, hclip, hpaint]
  cases hl : req.legal_range with
  | true => simp
  | false => simp [hex_to_rgb_clamp hcB]

/-- Witness for C2: a two-band request where both bands cover grid sample 2
and the output holds the colour of the second band. -/
theorem claim_C2_witness :
    lut_sample envId reqC2 2 = .ok ⟨0, 0, 1⟩ ∧
    (⟨0, 0, 1⟩ : RGB) =
      (if reqC2.legal_range = true
       then RGB.map clamp01 (RGB.map legalize ⟨0, 0, 1⟩) else ⟨0, 0, 1⟩) :=
  ⟨by with_unfolding_all decide,
   claim_C2 envId reqC2 sonyProfile rec709Profile [] [] [] bandA bandB ⟨0, 0, 1⟩ 2 ⟨0, 0, 1⟩
     (by with_unfolding_all decide) (by with_unfolding_all decide)
     (by with_unfolding_all decide) (by with_unfolding_all decide)
     (by with_unfolding_all decide) (by with_unfolding_all decide)
     (by with_unfolding_all decide) (by with_unfolding_all decide)
     (by with_unfolding_all decide) (by with_unfolding_all decide)⟩

/-- Claim C3: clip overlays override band overlays.  A sample inside some
band interval that satisfies the enabled white clip condition renders as
the white clip colour; one that satisfies the enabled black clip condition
renders as the black clip colour provided the white clip does not also
cover it (the white overlay is written after the black one in the source,
so it wins where both apply).  With the legal-range rescale on, the clip
colour is rescaled and clamped like every other sample. -/
theorem claim_C3 (env : LibEnv) (req : Request) (p : CameraProfile) (t : TargetProfile)
    (n : ℕ) :
    (∀ v cw, CAMERA_PROFILES req.profile_name = some p →
      TARGET_PROFILES req.target_name = some t →
      (∃ b ∈ req.bands, bandMask b.stop b.width (bandValuesOf env p t req n) = true) →
      whiteApplies p req n = true →
      hex_to_rgb req.white_hex = some cw →
      lut_sample env req n = .ok v →
      v = if req.legal_range = true then RGB.map clamp01 (RGB.map legalize cw) else cw) ∧
    (∀ v cb, CAMERA_PROFILES req.profile_name = some p →
      TARGET_PROFILES req.target_name = some t →
      (∃ b ∈ req.bands, bandMask b.stop b.width (bandValuesOf env p t req n) = true) →
      blackApplies p req n = true →
      whiteApplies p req n = false →
      hex_to_rgb req.black_hex = some cb →
      lut_sample env req n = .ok v →
      v = if req.legal_range = true then RGB.map clamp01 (RGB.map legalize cb) else cb) := by
  constructor
  · intro v cw hp ht _ hwa hcw h
    obtain ⟨painted, clipped, hb, hc, hv⟩ := lut_sample_ok_inv hp ht h
    have hclip : clipped n = cw := applyClips_white hc hwa hcw
    rw [hv, hclip]
    cases hl : req.legal_range with
    | true => simp
    | false => simp [hex_to_rgb_clamp hcw]
  · intro v cb hp ht _ hba hwa hcb h
    obtain ⟨painted, clipped, hb, hc, hv⟩ := lut_sample_ok_inv hp ht h
    have hclip : clipped n = cb := applyClips_black hc hba hwa hcb
    rw [hv, hclip]
    cases hl : req.legal_range with
    | true => simp
    | false => simp [hex_to_rgb_clamp hcb]

/-- Request fixture: a band plus an enabled white clip. -/
def reqC3w : Request :=
  { reqBase with bands := [bandA], white_clip := true, white_hex := "#ffffff" }

/-- Request fixture: a band plus an enabled black clip, white clip off. -/
def reqC3b : Request :=
  { reqBase with bands := [bandA], black_clip := true, black_hex := "#ff00ff" }

/-- Witness for C3: at grid sample 2 of a size-2 cube, the band interval
and both clip tolerances cover the sample; the white clip wins in the
white request and the black clip in the black request. -/
theorem claim_C3_witness :
    lut_sample envId reqC3w 2 = .ok ⟨1, 1, 1⟩ ∧
    (⟨1, 1, 1⟩ : RGB) =
      (if reqC3w.legal_range = true
       then RGB.map clamp01 (RGB.map legalize ⟨1, 1, 1⟩) else ⟨1, 1, 1⟩) ∧
    lut_sample envId reqC3b 2 = .ok ⟨1, 0, 1⟩ ∧
    (⟨1, 0, 1⟩ : RGB) =
      (if reqC3b.legal_range = true
       then RGB.map clamp01 (RGB.map legalize ⟨1, 0, 1⟩) else ⟨1, 0, 1⟩) :=
  ⟨by with_unfolding_all decide,
   (claim_C3 envId reqC3w sonyProfile rec709Profile 2).1 ⟨1, 1, 1⟩ ⟨1, 1, 1⟩
     (by with_unfolding_all decide) (by with_unfolding_all decide)
     (by with_unfolding_all decide) (by with_unfolding_all decide)
     (by with_unfolding_all decide) (by with_unfolding_all decide),
   by with_unfolding_all decide,
   (claim_C3 envId reqC3b sonyProfile rec709Profile 2).2 ⟨1, 0, 1⟩ ⟨1, 0, 1⟩
     (by with_unfolding_all decide) (by with_unfolding_all decide)
     (by with_unfolding_all decide) (by with_unfolding_all decide)
     (by with_unfolding_all decide) (by with_unfolding_all decide)
     (by with_unfolding_all decide)⟩

/-- Claim C4: with the black clip enabled (non-empty parseable colour) and
the white clip disabled, the table value at a sample is the black clip
colour exactly when the minimum channel of the raw log-encoded gridSample
is at or below log_floor + clipTol, where clipTol N = (1/(N-1))/2 is half
a grid step; otherwise it is the band-stage value untouched.  The
condition reads the raw grid, never linear or display values. -/
theorem claim_C4 (env : LibEnv) (req : Request) (p : CameraProfile) (t : TargetProfile)
    (n : ℕ) (v w cb : RGB)
    (hp : CAMERA_PROFILES req.profile_name = some p)
    (ht : TARGET_PROFILES req.target_name = some t)
    (hbc : req.black_clip = true)
    (hbh : req.black_hex ≠ "")
    (hcb : hex_to_rgb req.black_hex = some cb)
    (hwc : req.white_clip = false)
    (hw : bands_sample (bandValuesOf env p t req) req.bands
        (baseImage env p t req.monochrome req.cube_size) n = .ok w)
    (h : lut_sample env req n = .ok v) :
    v = RGB.map clamp01
      (if req.legal_range = true
       then RGB.map legalize
         (if (gridSample req.cube_size n).min3 ≤ p.log_floor + clipTol req.cube_size
          then cb else w)
       else
         (if (gridSample req.cube_size n).min3 ≤ p.log_floor + clipTol req.cube_size
          then cb else w)) := by
  obtain ⟨painted, clipped, hb, hc, hv⟩ := lut_sample_ok_inv hp ht h
  obtain ⟨painted2, hb2, hw2⟩ := bands_sample_ok_inv hw
  rw [hb] at hb2
  cases hb2
  have hwhiteF : whiteApplies p req n = false := by
    simp [whiteApplies, hwc]
  by_cases hm : (gridSample req.cube_size n).min3 ≤ p.log_floor + clipTol req.cube_size
  · have hba : blackApplies p req n = true := by
      simp [blackApplies, hbc, hbh, hm]
    have hcl : clipped n = cb := applyClips_black hc hba hwhiteF hcb
    rw [hv, hcl, if_pos hm]
  · have hba : blackApplies p req n = false := by
      simp [blackApplies, hm]
    have hcl : clipped n = painted n := applyClips_skip hc hba hwhiteF
    rw [hv, hcl, ← hw2, if_neg hm]

/-- Witness for C4 at grid sample 2 of the black-clip fixture: the raw grid
minimum 0 is within the floor tolerance, so the sample is painted with the
black clip colour. -/
theorem claim_C4_witness :
    lut_sample envId reqC3b 2 = .ok ⟨1, 0, 1⟩ ∧
    (⟨1, 0, 1⟩ : RGB) = RGB.map clamp01
      (if reqC3b.legal_range = true
       then RGB.map legalize
         (if (gridSample reqC3b.cube_size 2).min3 ≤
            sonyProfile.log_floor + clipTol reqC3b.cube_size
          then ⟨1, 0, 1⟩ else ⟨1, 0, 0⟩)
       else
         (if (gridSample reqC3b.cube_size 2).min3 ≤
            sonyProfile.log_floor + clipTol reqC3b.cube_size
          then ⟨1, 0, 1⟩ else ⟨1, 0, 0⟩)) :=
  ⟨by with_unfolding_all decide,
   claim_C4 envId reqC3b sonyProfile rec709Profile 2 ⟨1, 0, 1⟩ ⟨1, 0, 0⟩ ⟨1, 0, 1⟩
     (by with_unfolding_all decide) (by with_unfolding_all decide)
     (by with_unfolding_all decide) (by with_unfolding_all decide)
     (by with_unfolding_all decide) (by with_unfolding_all decide)
     (by with_unfolding_all decide) (by with_unfolding_all decide)⟩

/-- Request fixture with the legal-range rescale on. -/
def reqC5 : Request := { reqBase with legal_range := true }

/-- Claim C5: the legal-range rescale is the affine map
x ↦ x(940/1023 − 64/1023) + 64/1023: it sends 0.0 to exactly 64/1023 and
1.0 to exactly 940/1023, is strictly monotonic, composes with its affine
inverse to the identity (exactly, over the rationals), and is applied
after both overlay stages: with legal_range on, every output sample is the
clamped legalize image of the post-overlay value. -/
theorem claim_C5 :
    legalize 0 = 64 / 1023 ∧
    legalize 1 = 940 / 1023 ∧
    StrictMono legalize ∧
    (∀ x : ℚ, legalize_inv (legalize x) = x) ∧
    (∀ (env : LibEnv) (req : Request) (p : CameraProfile) (t : TargetProfile)
       (n : ℕ) (z v : RGB),
      CAMERA_PROFILES req.profile_name = some p →
      TARGET_PROFILES req.target_name = some t →
      req.legal_range = true →
      overlay_sample env p t req n = .ok z →
      lut_sample env req n = .ok v →
      v = RGB.map clamp01 (RGB.map legalize z)) := by
  refine ⟨?_, ?_, ?_, ?_, ?_⟩
  · norm_num [legalize, legal_low, legal_high]
  · norm_num [legalize, legal_low, legal_high]
  · intro a b hab
    unfold legalize
    have hpos : (0 : ℚ) < legal_high - legal_low := by
      norm_num [legal_low, legal_high]
    nlinarith
  · intro x
    unfold legalize legalize_inv
    have hne : legal_high - legal_low ≠ 0 := by
      norm_num [legal_low, legal_high]
    field_simp
  · intro env req p t n z v hp ht hl ho h
    obtain ⟨painted, clipped, hb, hc, hz⟩ := overlay_sample_ok_inv ho
    obtain ⟨painted2, clipped2, hb2, hc2, hv⟩ := lut_sample_ok_inv hp ht h
    rw [hb] at hb2
    cases hb2
    rw [hc] at hc2
    cases hc2
    rw [hl] at hv
    simp only [if_true] at hv
    rw [hz]
    exact hv

/-- Witness for C5: endpoint order, a round trip through the inverse, and
the factored output at a concrete legal-range request. -/
theorem claim_C5_witness :
    legalize 0 < legalize 1 ∧
    legalize_inv (legalize (1 / 3)) = 1 / 3 ∧
    lut_sample envId reqC5 2 = .ok ⟨64 / 1023, 940 / 1023, 64 / 1023⟩ ∧
    overlay_sample envId sonyProfile rec709Profile reqC5 2 = .ok ⟨0, 1, 0⟩ ∧
    (⟨64 / 1023, 940 / 1023, 64 / 1023⟩ : RGB) =
      RGB.map clamp01 (RGB.map legalize ⟨0, 1, 0⟩) :=
  ⟨claim_C5.2.2.1 (by norm_num),
   claim_C5.2.2.2.1 (1 / 3),
   by with_unfolding_all decide,
   by with_unfolding_all decide,
   claim_C5.2.2.2.2 envId reqC5 sonyProfile rec709Profile 2 ⟨0, 1, 0⟩
     ⟨64 / 1023, 940 / 1023, 64 / 1023⟩
     (by with_unfolding_all decide) (by with_unfolding_all decide) rfl
     (by with_unfolding_all decide) (by with_unfolding_all decide)⟩

/-- Request fixture: a single zero-width band centred exactly on the stops
metric value of grid sample 2 under envId. -/
def reqC6 : Request := { reqBase with bands := [⟨50 / 9, "#ff00ff", 0⟩] }

/-- Counterexample to C6 as stated: generate_lut neither rejects a
zero-width band (the engine has no InvalidBand failure path and the result
is ok) nor treats it as never matching: grid sample 2, whose stops metric
equals the band centre exactly, is painted with the band colour, which
differs from the value the same request without the band produces. -/
theorem claim_C6_counterexample :
    lut_sample envId reqC6 2 = .ok ⟨1, 0, 1⟩ ∧
    lut_sample envId reqBase 2 = .ok ⟨0, 1, 0⟩ ∧
    (⟨1, 0, 1⟩ : RGB) ≠ (⟨0, 1, 0⟩ : RGB) := by
  refine ⟨?_, ?_, ?_⟩ <;> with_unfolding_all decide

/-- Claim C6 amended: generate_lut raises no error for a non-positive
width; a band with negative width matches no sample and (when its colour
parses) leaves the band loop output unchanged, while a zero-width band
matches exactly the samples whose band value equals its centre. -/
theorem claim_C6_amended :
    (∀ center width v : ℚ, width < 0 → bandMask center width v = false) ∧
    (∀ center v : ℚ, bandMask center 0 v = decide (v = center)) ∧
    (∀ (bv : ℕ → ℚ) (b : Band) (c : RGB) (l1 l2 : List Band) (data : ℕ → RGB),
      b.width < 0 → hex_to_rgb b.color = some c →
      applyBands bv (l1 ++ b :: l2) data = applyBands bv (l1 ++ l2) data) :=
  ⟨fun _ _ _ hw => bandMask_of_neg hw,
   fun center v => bandMask_zero center v,
   fun bv b c l1 l2 data hw hc => applyBands_skip_neg hw hc l1 l2 data⟩

/-- Witness for the amended C6 at concrete bands. -/
theorem claim_C6_amended_witness :
    bandMask 3 (-1) 3 = false ∧
    bandMask (50 / 9) 0 (50 / 9) = decide ((50 / 9 : ℚ) = 50 / 9) ∧
    applyBands (fun _ => 0) ([] ++ (⟨1, "#ff0000", -1⟩ : Band) :: []) (fun _ => ⟨0, 0, 0⟩)
      = applyBands (fun _ => 0) ([] ++ []) (fun _ => ⟨0, 0, 0⟩) :=
  ⟨claim_C6_amended.1 3 (-1) 3 (by norm_num),
   claim_C6_amended.2.1 (50 / 9) (50 / 9),
   claim_C6_amended.2.2 (fun _ => 0) ⟨1, "#ff0000", -1⟩ ⟨1, 0, 0⟩ [] [] (fun _ => ⟨0, 0, 0⟩)
     (by norm_num) (by with_unfolding_all decide)⟩

/-- Claim C10: band membership is a function of the band centre, the band
width and the per-sample band value alone.  The band value (bandValuesOf)
comes from the pre-overlay pipeline and is never recomputed during
painting, so applying earlier bands cannot change which samples a later
band matches; the list order decides only which matching colour wins: a
sample matched by no band keeps the incoming value, and a sample whose
last matching band is b holds the colour of b. -/
theorem claim_C10 (env : LibEnv) (req : Request) (p : CameraProfile) (t : TargetProfile)
    (data : ℕ → RGB) (n : ℕ) (w : RGB)
    (h : bands_sample (bandValuesOf env p t req) req.bands data n = .ok w) :
    ((∀ b ∈ req.bands, bandMask b.stop b.width (bandValuesOf env p t req n) = false) →
      w = data n) ∧
    (∀ (l1 l2 : List Band) (b : Band) (c : RGB),
      req.bands = l1 ++ b :: l2 →
      bandMask b.stop b.width (bandValuesOf env p t req n) = true →
      (∀ x ∈ l2, bandMask x.stop x.width (bandValuesOf env p t req n) = false) →
      hex_to_rgb b.color = some c →
      w = c) := by
  obtain ⟨painted, hb, hw⟩ := bands_sample_ok_inv h
  constructor
  · intro hnone
    rw [hw]
    exact applyBands_no_match _ _ _ hb hnone
  · intro l1 l2 b c hl hbm hl2 hc
    rw [hw]
    rw [hl] at hb
    exact applyBands_last _ _ _ hb hbm hl2 hc

/-- Witness for C10 at the two-band fixture: the last matching band wins. -/
theorem claim_C10_witness :
    bands_sample (bandValuesOf envId sonyProfile rec709Profile reqC2) reqC2.bands
      (fun _ => ⟨0, 0, 0⟩) 2 = .ok ⟨0, 0, 1⟩ ∧
    (⟨0, 0, 1⟩ : RGB) = (⟨0, 0, 1⟩ : RGB) :=
  ⟨by with_unfolding_all decide,
   (claim_C10 envId reqC2 sonyProfile rec709Profile (fun _ => ⟨0, 0, 0⟩) 2 ⟨0, 0, 1⟩
      (by with_unfolding_all decide)).2 [bandA] [] bandB ⟨0, 0, 1⟩
     (by with_unfolding_all decide) (by with_unfolding_all decide)
     (by with_unfolding_all decide) (by with_unfolding_all decide)⟩

end LutBuilder
